import Mathlib

/-!
Shallow embedding of the Double-DQN training script `src/lunarlander.py`.

Real scalars (PyTorch floats) are modelled as exact rationals; tensors are
modelled as lists of rationals (a batch is a list of rows).  The neural
network layer math, the optimizer and the autodiff engine are external
collaborators of the spec; forward passes are therefore abstracted as
functions supplied to each embedded operation, and gradient tracking is
modelled with forward-mode dual numbers (a value together with its
derivative along one arbitrary parameter direction).  A tensor produced
inside a `torch.no_grad()` block is a detached dual (derivative zero).
-/

/- Configuration constants, src/lunarlander.py lines 41-81. -/

def BATCH_SIZE : ℕ := 64

def INPUT_N_STATES : ℕ := 4

def TRAIN_INTERVAL : ℕ := 1

def SOFT_COPY_INTERVAL : ℕ := 1

def HARD_COPY_INTERVAL : ℕ := 10000

def GAMMA : ℚ := 99 / 100

def TAU : ℚ := 1 / 10000

def REWARD_AFFECT_PAST_N : ℕ := 10

def REWARD_AFFECT_THRESH : List ℚ := [-5, 5]

def MEMORY_REWARD_THRESH : ℚ := 0

def DISABLE_RANDOM : Bool := false

def LEARNING_ENABLED : Bool := true

def EPS_DECAY : ℚ := 1 / 1000

def MIN_EPS : ℚ := 1 / 20

/-- Capacity of the replay store, line 184: `actor_mem = MemoryStack(1000000)`. -/
def MEMORY_CAPACITY : ℕ := 1000000

/-- A transition record, line 181: `Transition = namedtuple(..., ('state', 'action',
'next_state', 'reward'))`.  Index 3 of the underlying record is the reward field. -/
structure Transition where
  state : List ℚ
  action : ℕ
  next_state : List ℚ
  reward : ℚ
deriving DecidableEq

def Transition.dflt : Transition := ⟨[], 0, [], 0⟩

/-- The two buffers mutated by the reward-shaping pipeline: `short_memory`
(line 204) and the contents of `actor_mem` (line 184). -/
structure MemState where
  shortMem : List Transition
  actorMem : List Transition
deriving DecidableEq

/-- Modelled from the spec: `MemoryStack.push` lives in `utils/memory_stack.py`,
which is not under src/.  Spec section 3: the Replay Store is a "fixed-capacity
circular buffer of Transitions"; "once full, insertion evicts the oldest entry
(ring-buffer semantics)". -/
def MemoryStack.push (t : Transition) (mem : List Transition) : List Transition :=
  if mem.length < MEMORY_CAPACITY then mem ++ [t] else mem.tail ++ [t]

/-- Conditional admission of a flushed transition, lines 239-241:
`if abs(short_mem.reward) > MEMORY_REWARD_THRESH: actor_mem.push(short_mem)`. -/
def condPush (t : Transition) (mem : List Transition) : List Transition :=
  if MEMORY_REWARD_THRESH < abs t.reward then MemoryStack.push t mem else mem

/-- `send_short_to_long_mem(n)`, lines 225-241: pops the `n` oldest records off
`short_memory` and forwards each to the conditional-admission push.  CPython
raises IndexError on `list.pop(0)` of an empty list; every call site passes
`n` at most the current length, so that branch is unreachable and is modelled
as the identity. -/
def send_short_to_long_mem : ℕ → MemState → MemState
  | 0, m => m
  | _ + 1, ⟨[], a⟩ => ⟨[], a⟩
  | n + 1, ⟨t :: rest, a⟩ => send_short_to_long_mem n ⟨rest, condPush t a⟩

/-- First phase of `affect_short_mem`, lines 215-217: when the window length
exceeds `REWARD_AFFECT_PAST_N`, force the oldest record out. -/
def affect_flush_phase (m : MemState) : MemState :=
  if REWARD_AFFECT_PAST_N < m.shortMem.length then send_short_to_long_mem 1 m else m

/-- The shaping loop of lines 222-223: `for i in range(0, len(short_memory)):
short_memory[-(i + 1)][3] += reward / (i + 1)`.  The record at 0-based position
`p` from the front of a window of length `k` is `short_memory[-(k - p)]`, so it
receives `reward / (k - p)`; `shapeFrom` walks the window from the front
carrying the position counter `p`. -/
def shapeFrom (reward : ℚ) (k : ℕ) : ℕ → List Transition → List Transition
  | _, [] => []
  | p, t :: ts =>
      { t with reward := t.reward + reward / ((k - p : ℕ) : ℚ) } :: shapeFrom reward k (p + 1) ts

def shapeRewards (reward : ℚ) (l : List Transition) : List Transition :=
  shapeFrom reward l.length 0 l

/-- `affect_short_mem(reward)`, lines 206-223: flush phase first, then, when the
incoming reward lies outside the closed interval given by
`REWARD_AFFECT_THRESH`, back-apply it to every resident record with
harmonically diminishing weight. -/
def affect_short_mem (reward : ℚ) (m : MemState) : MemState :=
  if reward < REWARD_AFFECT_THRESH.getD 0 0 ∨ REWARD_AFFECT_THRESH.getD 1 0 < reward then
    ⟨shapeRewards reward (affect_flush_phase m).shortMem, (affect_flush_phase m).actorMem⟩
  else affect_flush_phase m

/-- Modelled from the spec: the `GreedyEpsilon` class lives in
`utils/dqn_utils.py`, which is not under src/.  Line 86 constructs it as
`GreedyEpsilon(DISABLE_RANDOM, EPS_DECAY, MIN_EPS)`. -/
structure GreedyEpsilon where
  disable_random : Bool
  eps_decay : ℚ
  min_eps : ℚ

/-- Modelled from the spec: `GreedyEpsilon.choose`, spec section 4.1.  "If
exploration is globally disabled by configuration, always returns
(false, epsilon)....  draws one uniform random sample in [0,1);
explore := sample < epsilon.  Decay: next_epsilon := max(MIN_EPS,
epsilon - EPS_DECAY), applied unconditionally on every call regardless of
whether exploration was chosen." -/
def GreedyEpsilon.choose (g : GreedyEpsilon) (sample eps : ℚ) : Bool × ℚ :=
  if g.disable_random then (false, eps)
  else (decide (sample < eps), max g.min_eps (eps - g.eps_decay))

/-- Line 86: `greedy_epsilon = GreedyEpsilon(DISABLE_RANDOM, EPS_DECAY, MIN_EPS)`. -/
def greedy_epsilon : GreedyEpsilon := ⟨DISABLE_RANDOM, EPS_DECAY, MIN_EPS⟩

/-- Modelled from the spec: the `ModelAdjuster` class lives in
`utils/dqn_utils.py`, which is not under src/.  Line 87 constructs it as
`ModelAdjuster(TAU, HARD_COPY_INTERVAL, SOFT_COPY_INTERVAL)`. -/
structure ModelAdjuster where
  tau : ℚ
  hard_copy_interval : ℕ
  soft_copy_interval : ℕ

/-- Modelled from the spec: `ModelAdjuster.soft_hard_copy`, spec section 4.4.
Soft update when `global_step % SOFT_COPY_INTERVAL == 0`: every target
parameter moves as `t + tau * (o - t)`; hard update when
`global_step % HARD_COPY_INTERVAL == 0`: target parameters are overwritten by
the online parameters, superseding the soft blend when both fire on the same
step; otherwise the target parameters are left unchanged.  Parameter vectors
are modelled as flat lists of scalars. -/
def ModelAdjuster.soft_hard_copy (m : ModelAdjuster) (step : ℕ)
    (online target : List ℚ) : List ℚ :=
  let soft :=
    if step % m.soft_copy_interval = 0 then
      List.zipWith (fun o t => t + m.tau * (o - t)) online target
    else target
  if step % m.hard_copy_interval = 0 then online else soft

/-- Line 87: `model_adjuster = ModelAdjuster(TAU, HARD_COPY_INTERVAL, SOFT_COPY_INTERVAL)`. -/
def model_adjuster : ModelAdjuster := ⟨TAU, HARD_COPY_INTERVAL, SOFT_COPY_INTERVAL⟩

/-- `try_learning()`, lines 186-196: train only when learning is enabled, the
replay holds strictly more than `BATCH_SIZE` transitions and the global step is
a multiple of `TRAIN_INTERVAL`.  `model_train` only samples from the replay
store and updates the online parameters through the optimizer, so the replay
contents pass through unchanged; the model-file save branch (lines 200-201) is
external persistence and is not modelled.  Returns the replay contents, the
online parameters and whether a training update ran. -/
def try_learning (trainFn : List ℚ → List ℚ) (step : ℕ)
    (mem : List Transition) (params : List ℚ) :
    List Transition × List ℚ × Bool :=
  if LEARNING_ENABLED = false then (mem, params, false)
  else if BATCH_SIZE < mem.length then
    if step % TRAIN_INTERVAL = 0 then (mem, trainFn params, true)
    else (mem, params, false)
  else (mem, params, false)

/-- A Python deque with a maximum length: appending to a full deque drops the
oldest entries (line 245: `obs_stack = deque(maxlen=INPUT_N_STATES)`). -/
def dequeAppend (maxlen : ℕ) (q : List (List ℚ)) (x : List ℚ) : List (List ℚ) :=
  let grown := q ++ [x]
  if maxlen < grown.length then grown.drop (grown.length - maxlen) else grown

/-- The transition record built at lines 309-311: the state is the
concatenation of the observation stack before the step, the next state is the
concatenation after appending the newest observation (lines 303-305). -/
def mem_block (obsStack : List (List ℚ)) (nextObs : List ℚ) (action : ℕ)
    (reward : ℚ) : Transition :=
  ⟨obsStack.flatten, action, (dequeAppend INPUT_N_STATES obsStack nextObs).flatten, reward⟩

/-- Lines 404-410 of `main()`: between calls of the episode loop the
observation stack is re-initialized to `INPUT_N_STATES` copies of the reset
observation. -/
def main_obs_stack_reinit (obs : List ℚ) : List (List ℚ) :=
  List.replicate INPUT_N_STATES obs

/-- The mutable globals threaded through one iteration of the `model_infer`
loop (lines 256-318). -/
structure AgentState where
  obs_stack : List (List ℚ)
  short_memory : List Transition
  actor_mem : List Transition
  eps : ℚ
  step : ℕ
  online : List ℚ
  target : List ℚ
deriving DecidableEq

/-- The external data consumed by one iteration of the `model_infer` loop: the
environment step results (line 283), the reset observation used when the
episode ends (line 292), the discrete action selected at line 281 (the network
forward pass and the exploration noise are external collaborators), the RNG
samples drawn by the greedy-epsilon policy, and the optimizer update applied
to the online parameters when a training step runs. -/
structure StepInput where
  env_obs : List ℚ
  reward : ℚ
  done : Bool
  reset_obs : List ℚ
  action : ℕ
  samples : List ℚ
  trainFn : List ℚ → List ℚ

/-- One iteration of the `model_infer` loop, lines 269-318.  Every call of
`CustomDQN.forward` runs `explore, eps = greedy_epsilon.choose(eps)` (line
148) whatever the `training` flag is; the inference forward at line 274 is one
such call, and a training update adds three more (lines 345, 359 and 363 -
the last one on `pred_model`, which shares the same `forward`). -/
def model_infer_step (inp : StepInput) (s : AgentState) : AgentState :=
  -- line 274: inference forward pass (one greedy-epsilon call)
  let eps1 := (greedy_epsilon.choose (inp.samples.getD 0 0) s.eps).2
  -- lines 291-294: on terminated or truncated the environment is reset
  -- before the transition record is built
  let next_obs := if inp.done then inp.reset_obs else inp.env_obs
  -- line 301
  let m1 := affect_short_mem inp.reward ⟨s.short_memory, s.actor_mem⟩
  -- lines 303-305
  let stack1 := dequeAppend INPUT_N_STATES s.obs_stack next_obs
  -- lines 309-311
  let mb := mem_block s.obs_stack next_obs inp.action inp.reward
  let m2 : MemState := ⟨m1.shortMem ++ [mb], m1.actorMem⟩
  -- line 313: full flush at episode end
  let m3 := if inp.done then send_short_to_long_mem m2.shortMem.length m2 else m2
  -- line 315
  let tl := try_learning inp.trainFn s.step m3.actorMem s.online
  -- lines 345, 359, 363: three more forward passes run inside model_train,
  -- each decaying epsilon once more
  let eps2 :=
    if tl.2.2 then
      (greedy_epsilon.choose (inp.samples.getD 3 0)
        ((greedy_epsilon.choose (inp.samples.getD 2 0)
          ((greedy_epsilon.choose (inp.samples.getD 1 0) eps1).2)).2)).2
    else eps1
  -- line 317
  let target1 := model_adjuster.soft_hard_copy s.step tl.2.1 s.target
  -- line 318: step += 1
  ⟨stack1, m3.shortMem, tl.1, eps2, s.step + 1, tl.2.1, target1⟩

/- Forward-mode dual numbers: a tensor scalar together with its derivative
along one arbitrary direction in parameter space. -/

structure Dual where
  val : ℚ
  grad : ℚ
deriving DecidableEq

def Dual.zero : Dual := ⟨0, 0⟩

/-- A tensor produced under `torch.no_grad()` carries no derivative. -/
def Dual.detach (d : Dual) : Dual := ⟨d.val, 0⟩

def Dual.ofConst (c : ℚ) : Dual := ⟨c, 0⟩

def Dual.add (a b : Dual) : Dual := ⟨a.val + b.val, a.grad + b.grad⟩

def Dual.sub (a b : Dual) : Dual := ⟨a.val - b.val, a.grad - b.grad⟩

def Dual.cmul (c : ℚ) (a : Dual) : Dual := ⟨c * a.val, c * a.grad⟩

def Dual.sumList (l : List Dual) : Dual := l.foldr Dual.add Dual.zero

def Dual.divNat (a : Dual) (n : ℕ) : Dual := ⟨a.val / (n : ℚ), a.grad / (n : ℚ)⟩

/-- Index of the first maximum of a list, the `torch.max(.., dim=1)` index of
lines 281, 360. -/
def listArgmax (l : List ℚ) : ℕ :=
  (List.range l.length).foldl (fun best i => if l.getD best 0 < l.getD i 0 then i else best) 0

/-- The Double-DQN target for one batch row, lines 357-367.  `qOnlineNext` and
`qTargetNext` are the Q-value rows the online and the target network produce
on the same next state; both forwards run inside `with torch.no_grad()`
(lines 357-364), so their outputs are detached.  Line 360 selects the arg-max
action from the online output; line 364 gathers the target-network value at
exactly that index; line 367 forms
`target_output = reward_batch + next_state_actions * GAMMA`. -/
def ddqn_target_row (reward : ℚ) (qOnlineNext qTargetNext : List Dual) : Dual :=
  let actor_next_preds := qOnlineNext.map Dual.detach
  let actor_pred_max_a := listArgmax (actor_next_preds.map Dual.val)
  let pred_out := qTargetNext.map Dual.detach
  let next_state_actions := pred_out.getD actor_pred_max_a Dual.zero
  Dual.add (Dual.ofConst reward) (Dual.cmul GAMMA next_state_actions)

/-- The Double-DQN target over a batch: lines 359 and 363 forward both
networks on the same `next_state_batch`. -/
def ddqn_target_batch (rewards : List ℚ) (qOnline qTarget : List ℚ → List Dual)
    (next_state_batch : List (List ℚ)) : List Dual :=
  List.zipWith (fun r ns => ddqn_target_row r (qOnline ns) (qTarget ns))
    rewards next_state_batch

/- The loss and telemetry computation of model_train, lines 345-382. -/

/-- One element of `nn.HuberLoss()` with its default delta of 1: quadratic
inside the unit band, linear outside, differentiated along the dual
direction. -/
def huberElemD (x y : Dual) : Dual :=
  let d := Dual.sub x y
  if abs d.val ≤ 1 then ⟨d.val ^ 2 / 2, d.val * d.grad⟩
  else ⟨abs d.val - 1 / 2, (if 0 ≤ d.val then 1 else -1) * d.grad⟩

/-- `nn.HuberLoss()` with its default mean reduction over all elements. -/
def huberLossD (pred target : List Dual) : Dual :=
  Dual.divNat (Dual.sumList (List.zipWith huberElemD pred target)) pred.length

/-- Mean of every element of a 2-dimensional tensor (`torch.mean` of the whole
tensor). -/
def mean2 (l : List (List ℚ)) : ℚ :=
  (l.map List.sum).sum / (((l.map List.length).sum : ℕ) : ℚ)

def listMax (l : List ℚ) : ℚ := l.foldl max (l.headD 0)

def listMin (l : List ℚ) : ℚ := l.foldl min (l.headD 0)

/-- Gradient clipping, line 381: `torch.nn.utils.clip_grad_value_(params, 1)`
clamps every gradient component to the closed interval from minus the bound to
the bound. -/
def clip_grad_value (bound g : ℚ) : ℚ := max (-bound) (min g bound)

/-- The loss and surprisal-telemetry computation of `model_train`, lines
345-372.  `state_actions` is the gathered online Q-value of each recorded
action (line 355) and `next_state_guess` the auxiliary-head prediction, both
as duals produced by the online forward pass at line 345; `target_output` is
the detached Double-DQN target of line 367 (a constant for autodiff), and
`next_state_batch` is replay data.  Lines 346-352 compute the surprisal
scalar from tensor values only and feed it to `multiplot.add_entry`; line 372
forms the loss as the Huber TD term plus the Huber auxiliary
next-state-prediction term.  Returns the loss dual and the logged surprisal
telemetry scalar. -/
def model_train_core (state_actions : List Dual) (target_output : List ℚ)
    (next_state_guess : List (List Dual)) (next_state_batch : List (List ℚ))
    (sBias sWeight : ℚ) : Dual × ℚ :=
  let guess_vals := next_state_guess.map (List.map Dual.val)
  let abs_pred_diff :=
    List.zipWith (fun row grow => List.zipWith (fun b g => abs (b - g)) row grow)
      next_state_batch guess_vals
  let mean_diff := mean2 abs_pred_diff
  let diff_from_mean := abs_pred_diff.map (List.map (fun x => x - mean_diff))
  let surprisal := diff_from_mean.map List.sum
  let scaled_surprisal := surprisal.map (fun x => (x + sBias) * sWeight)
  let tele := (listMax scaled_surprisal - listMin scaled_surprisal) * 5
  let actor_loss :=
    Dual.add (huberLossD state_actions (target_output.map Dual.ofConst))
      (huberLossD next_state_guess.flatten (next_state_batch.flatten.map Dual.ofConst))
  (actor_loss, tele)

/- Helper lemmas. -/

theorem getD_map {α β : Type} (f : α → β) (l : List α) (i : ℕ) (d : α) :
    (l.map f).getD i (f d) = f (l.getD i d) := by
  induction l generalizing i with
  | nil => simp [List.getD]
  | cons x xs ih =>
      cases i with
      | zero => simp [List.getD]
      | succ j => simp only [List.map_cons, List.getD_cons_succ]; exact ih j

theorem getD_zipWith {α β γ : Type} (f : α → β → γ) (as : List α) (bs : List β)
    (i : ℕ) (da : α) (db : β) (dc : γ) (ha : i < as.length) (hb : i < bs.length) :
    (List.zipWith f as bs).getD i dc = f (as.getD i da) (bs.getD i db) := by
  induction as generalizing bs i with
  | nil => simp at ha
  | cons a as ih =>
      cases bs with
      | nil => simp at hb
      | cons b bs =>
          cases i with
          | zero => simp [List.getD]
          | succ j =>
              simp only [List.zipWith_cons_cons, List.getD_cons_succ]
              exact ih bs j (by simpa using ha) (by simpa using hb)

theorem shapeFrom_length (r : ℚ) (k : ℕ) :
    ∀ (l : List Transition) (p : ℕ), (shapeFrom r k p l).length = l.length := by
  intro l
  induction l with
  | nil => intro p; rfl
  | cons t ts ih => intro p; simp [shapeFrom, ih (p + 1)]

theorem shapeFrom_getD_reward (r : ℚ) (k : ℕ) :
    ∀ (l : List Transition) (p j : ℕ), j < l.length →
      ((shapeFrom r k p l).getD j Transition.dflt).reward
        = (l.getD j Transition.dflt).reward + r / ((k - (p + j) : ℕ) : ℚ) := by
  intro l
  induction l with
  | nil => intro p j hj; simp at hj
  | cons t ts ih =>
      intro p j hj
      cases j with
      | zero => simp [shapeFrom, List.getD]
      | succ j =>
          have harith : p + 1 + j = p + (j + 1) := by omega
          simpa [shapeFrom, List.getD_cons_succ, harith] using
            ih (p + 1) j (by simpa using hj)

theorem send_short_to_long_mem_all (l a : List Transition) :
    send_short_to_long_mem l.length ⟨l, a⟩
      = ⟨[], l.foldl (fun mem t => condPush t mem) a⟩ := by
  induction l generalizing a with
  | nil => rfl
  | cons t rest ih =>
      simpa [send_short_to_long_mem, List.length_cons] using ih (condPush t a)

theorem try_learning_fst (f : List ℚ → List ℚ) (st : ℕ)
    (mem : List Transition) (p : List ℚ) :
    (try_learning f st mem p).1 = mem := by
  unfold try_learning
  split
  · rfl
  · split
    · split <;> rfl
    · rfl

theorem map_detach_val (l : List Dual) :
    (l.map Dual.detach).map Dual.val = l.map Dual.val := by
  induction l with
  | nil => rfl
  | cons d ds ih => simp [Dual.detach, ih]

theorem ddqn_target_row_spec (r : ℚ) (qo qt : List Dual) :
    (ddqn_target_row r qo qt).grad = 0 ∧
    (ddqn_target_row r qo qt).val
      = r + GAMMA * ((qt.map Dual.val).getD (listArgmax (qo.map Dual.val)) 0) := by
  have hz : Dual.zero = Dual.detach ⟨0, 0⟩ := rfl
  have hget : (qt.map Dual.detach).getD (listArgmax ((qo.map Dual.detach).map Dual.val))
      Dual.zero = Dual.detach (qt.getD (listArgmax ((qo.map Dual.detach).map Dual.val)) ⟨0, 0⟩) := by
    rw [hz]; exact getD_map Dual.detach qt _ ⟨0, 0⟩
  constructor
  · show (Dual.add (Dual.ofConst r) (Dual.cmul GAMMA _)).grad = 0
    rw [hget]
    simp [Dual.add, Dual.cmul, Dual.ofConst, Dual.detach]
  · show (Dual.add (Dual.ofConst r) (Dual.cmul GAMMA _)).val = _
    rw [hget, map_detach_val]
    have hval : (qt.map Dual.val).getD (listArgmax (qo.map Dual.val)) 0
        = (qt.getD (listArgmax (qo.map Dual.val)) ⟨0, 0⟩).val := by
      have h0 : (0 : ℚ) = Dual.val ⟨0, 0⟩ := rfl
      rw [h0]; exact getD_map Dual.val qt _ ⟨0, 0⟩
    rw [hval]
    rfl

/- Claim theorems. -/

/-- Claim C1: in every training step, the action index used to read the target
network Q-value on the next-state batch is exactly the arg-max action index
produced by the online network forward pass on the same next-state batch
(never independently computed from the target network), the TD target equals
reward + GAMMA * Q_target(next_state, that arg-max action), and the whole
selection-and-evaluation computation carries a zero derivative along every
parameter direction of both networks (lines 357-367 of src/lunarlander.py). -/
theorem C1_double_dqn_target (rewards : List ℚ) (next_state_batch : List (List ℚ))
    (qOnline qTarget : List ℚ → List Dual) (i : ℕ)
    (hi : i < next_state_batch.length)
    (hlen : rewards.length = next_state_batch.length) :
    ((ddqn_target_batch rewards qOnline qTarget next_state_batch).getD i Dual.zero).grad = 0 ∧
    ((ddqn_target_batch rewards qOnline qTarget next_state_batch).getD i Dual.zero).val
      = rewards.getD i 0
        + GAMMA * ((qTarget (next_state_batch.getD i [])).map Dual.val).getD
            (listArgmax ((qOnline (next_state_batch.getD i [])).map Dual.val)) 0 := by
  have hrow : (ddqn_target_batch rewards qOnline qTarget next_state_batch).getD i Dual.zero
      = ddqn_target_row (rewards.getD i 0) (qOnline (next_state_batch.getD i []))
          (qTarget (next_state_batch.getD i [])) := by
    unfold ddqn_target_batch
    exact getD_zipWith _ rewards next_state_batch i 0 [] Dual.zero (hlen ▸ hi) hi
  rw [hrow]
  exact ddqn_target_row_spec _ _ _

def qOnlineEx : List ℚ → List Dual := fun _ => [⟨3, 5⟩, ⟨4, 7⟩]

def qTargetEx : List ℚ → List Dual := fun _ => [⟨10, 9⟩, ⟨20, 11⟩]

theorem C1_double_dqn_target_witness :
    0 < ([[1]] : List (List ℚ)).length ∧
    ([2] : List ℚ).length = ([[1]] : List (List ℚ)).length ∧
    ((ddqn_target_batch [2] qOnlineEx qTargetEx [[1]]).getD 0 Dual.zero).grad = 0 ∧
    ((ddqn_target_batch [2] qOnlineEx qTargetEx [[1]]).getD 0 Dual.zero).val
      = ([2] : List ℚ).getD 0 0
        + GAMMA * ((qTargetEx (([[1]] : List (List ℚ)).getD 0 [])).map Dual.val).getD
            (listArgmax ((qOnlineEx (([[1]] : List (List ℚ)).getD 0 [])).map Dual.val)) 0 :=
  ⟨by decide, by decide,
    (C1_double_dqn_target [2] [[1]] qOnlineEx qTargetEx 0 (by decide) (by decide)).1,
    (C1_double_dqn_target [2] [[1]] qOnlineEx qTargetEx 0 (by decide) (by decide)).2⟩

/-- Claim C9: the surprisal scalar computed in the training step influences
only telemetry.  For the same batch and the same forward-pass results, two
runs of the training-step computation that differ only in SURPRISAL_BIAS and
SURPRISAL_WEIGHT produce the same loss (value and derivative along every
parameter direction), and hence, after gradient clipping, the same parameter
update under any optimizer (lines 346-352 and 371-382 of
src/lunarlander.py). -/
theorem C9_surprisal_telemetry_only (state_actions : List Dual)
    (target_output : List ℚ) (next_state_guess : List (List Dual))
    (next_state_batch : List (List ℚ)) (b1 w1 b2 w2 : ℚ) :
    (model_train_core state_actions target_output next_state_guess
        next_state_batch b1 w1).1
      = (model_train_core state_actions target_output next_state_guess
        next_state_batch b2 w2).1 ∧
    ∀ (optStep : ℚ → ℚ → ℚ) (p : ℚ),
      optStep p (clip_grad_value 1 (model_train_core state_actions target_output
          next_state_guess next_state_batch b1 w1).1.grad)
        = optStep p (clip_grad_value 1 (model_train_core state_actions target_output
          next_state_guess next_state_batch b2 w2).1.grad) := by
  have h : (model_train_core state_actions target_output next_state_guess
        next_state_batch b1 w1).1
      = (model_train_core state_actions target_output next_state_guess
        next_state_batch b2 w2).1 := rfl
  exact ⟨h, fun optStep p => by rw [h]⟩

theorem send_one (t : Transition) (rest a : List Transition) :
    send_short_to_long_mem 1 ⟨t :: rest, a⟩ = ⟨rest, condPush t a⟩ := rfl

theorem affect_flush_phase_of_le (m : MemState)
    (h : m.shortMem.length ≤ REWARD_AFFECT_PAST_N) : affect_flush_phase m = m := by
  unfold affect_flush_phase
  rw [if_neg (by omega)]

theorem affect_flush_phase_cons (t : Transition) (rest a : List Transition)
    (h : REWARD_AFFECT_PAST_N < (t :: rest).length) :
    affect_flush_phase ⟨t :: rest, a⟩ = ⟨rest, condPush t a⟩ := by
  unfold affect_flush_phase
  rw [if_pos (by simpa using h)]
  exact send_one t rest a

theorem affect_short_mem_length (r : ℚ) (m : MemState) :
    (affect_short_mem r m).shortMem.length = (affect_flush_phase m).shortMem.length := by
  unfold affect_short_mem
  split
  · show (shapeRewards r (affect_flush_phase m).shortMem).length = _
    unfold shapeRewards
    exact shapeFrom_length _ _ _ 0
  · rfl

theorem model_infer_step_short_memory_not_done (inp : StepInput) (s : AgentState)
    (h : inp.done = false) :
    (model_infer_step inp s).short_memory
      = (affect_short_mem inp.reward ⟨s.short_memory, s.actor_mem⟩).shortMem
        ++ [mem_block s.obs_stack inp.env_obs inp.action inp.reward] := by
  unfold model_infer_step
  rw [h]
  rfl

theorem model_infer_step_len_not_done (inp : StepInput) (s : AgentState)
    (h : inp.done = false) :
    (model_infer_step inp s).short_memory.length
      = (affect_flush_phase ⟨s.short_memory, s.actor_mem⟩).shortMem.length + 1 := by
  rw [model_infer_step_short_memory_not_done inp s h]
  simp [affect_short_mem_length]

/-- Claim C3: on every call of the reward-shaping observe step, an incoming
reward strictly outside the closed interval given by `REWARD_AFFECT_THRESH`
adds reward divided by the recency index (most recent record = 1) to every
record resident in the window after the flush phase, however many records are
present; an incoming reward inside the interval changes no stored reward
(lines 219-223 of src/lunarlander.py).  The record at 0-based position `j` of
a window of length `k` has recency `k - j`. -/
theorem C3_reward_shaping (reward : ℚ) (m : MemState) (j : ℕ)
    (hj : j < (affect_flush_phase m).shortMem.length) :
    ((reward < REWARD_AFFECT_THRESH.getD 0 0 ∨ REWARD_AFFECT_THRESH.getD 1 0 < reward) →
      ((affect_short_mem reward m).shortMem.getD j Transition.dflt).reward
        = ((affect_flush_phase m).shortMem.getD j Transition.dflt).reward
          + reward / (((affect_flush_phase m).shortMem.length - j : ℕ) : ℚ)) ∧
    (REWARD_AFFECT_THRESH.getD 0 0 ≤ reward ∧ reward ≤ REWARD_AFFECT_THRESH.getD 1 0 →
      (affect_short_mem reward m).shortMem = (affect_flush_phase m).shortMem) := by
  constructor
  · intro h
    unfold affect_short_mem
    rw [if_pos h]
    show ((shapeRewards reward (affect_flush_phase m).shortMem).getD j Transition.dflt).reward = _
    unfold shapeRewards
    simpa using
      shapeFrom_getD_reward reward (affect_flush_phase m).shortMem.length
        (affect_flush_phase m).shortMem 0 j hj
  · intro h
    have hc : ¬(reward < REWARD_AFFECT_THRESH.getD 0 0 ∨
        REWARD_AFFECT_THRESH.getD 1 0 < reward) := by
      rintro (hc | hc)
      · exact absurd hc (not_lt.mpr h.1)
      · exact absurd hc (not_lt.mpr h.2)
    unfold affect_short_mem
    rw [if_neg hc]

/-- The window of the worked example in the spec: stored rewards 0.1, 0.2,
0.3 from oldest to newest. -/
def mC3 : MemState :=
  ⟨[⟨[], 0, [], 1 / 10⟩, ⟨[], 0, [], 1 / 5⟩, ⟨[], 0, [], 3 / 10⟩], []⟩

theorem C3_reward_shaping_witness :
    2 < (affect_flush_phase mC3).shortMem.length ∧
    ((affect_short_mem 10 mC3).shortMem.getD 2 Transition.dflt).reward
      = ((affect_flush_phase mC3).shortMem.getD 2 Transition.dflt).reward
        + 10 / (((affect_flush_phase mC3).shortMem.length - 2 : ℕ) : ℚ) ∧
    (affect_short_mem 10 mC3).shortMem.map Transition.reward
      = [1 / 10 + 10 / 3, 1 / 5 + 10 / 2, 3 / 10 + 10 / 1] :=
  ⟨by decide, (C3_reward_shaping 10 mC3 2 (by decide)).1 (by decide), by
    norm_num [affect_short_mem, affect_flush_phase, shapeRewards, shapeFrom, mC3,
      REWARD_AFFECT_THRESH, REWARD_AFFECT_PAST_N, send_short_to_long_mem]⟩

/-- A non-terminal environment step with reward 0 and trivial surroundings. -/
def inpC4 : StepInput := ⟨[], 0, false, [], 0, [], fun p => p⟩

/-- A state whose reward-shaping window already holds exactly
`REWARD_AFFECT_PAST_N` records. -/
def sC4 : AgentState := ⟨[], List.replicate 10 Transition.dflt, [], 2, 1, [], []⟩

/-- Counterexample to claim C4 as stated: pushing one new transition into a
window that already holds `REWARD_AFFECT_PAST_N` records flushes nothing (the
flush only fires when the length strictly exceeds `REWARD_AFFECT_PAST_N`,
line 216), and the window length after the complete observe-and-append
operation is `REWARD_AFFECT_PAST_N + 1`, not `REWARD_AFFECT_PAST_N`. -/
theorem C4_counterexample :
    sC4.short_memory.length = REWARD_AFFECT_PAST_N ∧
    (model_infer_step inpC4 sC4).short_memory.length = REWARD_AFFECT_PAST_N + 1 ∧
    (model_infer_step inpC4 sC4).actor_mem = sC4.actor_mem ∧
    ¬(model_infer_step inpC4 sC4).short_memory.length = REWARD_AFFECT_PAST_N := by
  refine ⟨by decide, by decide, by decide, by decide⟩

/-- Claim C4 (amended): the forced flush fires when the window already holds
`REWARD_AFFECT_PAST_N + 1` records (one more than the claim states), popping
exactly the oldest record to the conditional-admission push before the new
record is appended, and leaving the window again at length
`REWARD_AFFECT_PAST_N + 1` after the complete observe-and-append operation; a
window holding at most `REWARD_AFFECT_PAST_N` records is not flushed and just
grows by one.  At no point are more than `REWARD_AFFECT_PAST_N + 1` records
retained (lines 214-217 and 309-311 of src/lunarlander.py). -/
theorem C4_window_eviction (inp : StepInput) (s : AgentState)
    (hdone : inp.done = false)
    (hlen : s.short_memory.length ≤ REWARD_AFFECT_PAST_N + 1) :
    (model_infer_step inp s).short_memory.length ≤ REWARD_AFFECT_PAST_N + 1 ∧
    (s.short_memory.length = REWARD_AFFECT_PAST_N + 1 →
      (affect_flush_phase ⟨s.short_memory, s.actor_mem⟩).shortMem
          = s.short_memory.tail ∧
      (affect_flush_phase ⟨s.short_memory, s.actor_mem⟩).actorMem
          = condPush (s.short_memory.getD 0 Transition.dflt) s.actor_mem ∧
      (model_infer_step inp s).short_memory.length = REWARD_AFFECT_PAST_N + 1) ∧
    (s.short_memory.length ≤ REWARD_AFFECT_PAST_N →
      affect_flush_phase ⟨s.short_memory, s.actor_mem⟩
          = ⟨s.short_memory, s.actor_mem⟩ ∧
      (model_infer_step inp s).short_memory.length
          = s.short_memory.length + 1) := by
  have hstep := model_infer_step_len_not_done inp s hdone
  refine ⟨?_, ?_, ?_⟩
  · rcases le_or_lt s.short_memory.length REWARD_AFFECT_PAST_N with hle | hgt
    · have hfl := affect_flush_phase_of_le ⟨s.short_memory, s.actor_mem⟩ hle
      rw [hstep, hfl]
      show s.short_memory.length + 1 ≤ REWARD_AFFECT_PAST_N + 1
      omega
    · rcases hsm : s.short_memory with _ | ⟨t, rest⟩
      · rw [hsm] at hgt; simp at hgt
      · have hfl : affect_flush_phase ⟨s.short_memory, s.actor_mem⟩
            = ⟨rest, condPush t s.actor_mem⟩ := by
          rw [hsm]
          exact affect_flush_phase_cons t rest s.actor_mem (by rw [← hsm]; omega)
        rw [hstep, hfl]
        show rest.length + 1 ≤ REWARD_AFFECT_PAST_N + 1
        have : (t :: rest).length ≤ REWARD_AFFECT_PAST_N + 1 := hsm ▸ hlen
        simp at this
        omega
  · intro heq
    rcases hsm : s.short_memory with _ | ⟨t, rest⟩
    · rw [hsm] at heq; simp [REWARD_AFFECT_PAST_N] at heq
    · have hrest : rest.length = REWARD_AFFECT_PAST_N := by
        rw [hsm] at heq; simpa using heq
      have hfl2 : affect_flush_phase ⟨t :: rest, s.actor_mem⟩
          = ⟨rest, condPush t s.actor_mem⟩ :=
        affect_flush_phase_cons t rest s.actor_mem (by simp [hrest])
      refine ⟨?_, ?_, ?_⟩
      · rw [hfl2]; rfl
      · rw [hfl2]; rfl
      · rw [hstep, hsm, hfl2]
        show rest.length + 1 = REWARD_AFFECT_PAST_N + 1
        omega
  · intro hle
    have hfl := affect_flush_phase_of_le ⟨s.short_memory, s.actor_mem⟩ hle
    refine ⟨hfl, ?_⟩
    rw [hstep, hfl]

/-- A state whose reward-shaping window holds `REWARD_AFFECT_PAST_N + 1`
records, the length at which the flush actually fires. -/
def sC4w : AgentState := ⟨[], List.replicate 11 Transition.dflt, [], 2, 1, [], []⟩

theorem C4_window_eviction_witness :
    inpC4.done = false ∧
    sC4w.short_memory.length ≤ REWARD_AFFECT_PAST_N + 1 ∧
    (model_infer_step inpC4 sC4w).short_memory.length ≤ REWARD_AFFECT_PAST_N + 1 ∧
    (affect_flush_phase ⟨sC4w.short_memory, sC4w.actor_mem⟩).shortMem
        = sC4w.short_memory.tail ∧
    (affect_flush_phase ⟨sC4w.short_memory, sC4w.actor_mem⟩).actorMem
        = condPush (sC4w.short_memory.getD 0 Transition.dflt) sC4w.actor_mem ∧
    (model_infer_step inpC4 sC4w).short_memory.length = REWARD_AFFECT_PAST_N + 1 :=
  ⟨rfl, by decide,
    (C4_window_eviction inpC4 sC4w rfl (by decide)).1,
    ((C4_window_eviction inpC4 sC4w rfl (by decide)).2.1 (by decide)).1,
    ((C4_window_eviction inpC4 sC4w rfl (by decide)).2.1 (by decide)).2.1,
    ((C4_window_eviction inpC4 sC4w rfl (by decide)).2.1 (by decide)).2.2⟩

/-- Claim C5: a transition flushed out of the reward-shaping window is pushed
into the replay store if and only if the absolute value of its post-shaping
reward strictly exceeds `MEMORY_REWARD_THRESH`; otherwise it is discarded and
the replay store is unchanged, in particular its size (lines 232-241 of
src/lunarlander.py). -/
theorem C5_admission_filter (m : MemState) (t : Transition)
    (rest : List Transition) (h : m.shortMem = t :: rest) :
    (send_short_to_long_mem 1 m).shortMem = rest ∧
    (MEMORY_REWARD_THRESH < abs t.reward →
      (send_short_to_long_mem 1 m).actorMem = MemoryStack.push t m.actorMem) ∧
    (abs t.reward ≤ MEMORY_REWARD_THRESH →
      (send_short_to_long_mem 1 m).actorMem = m.actorMem ∧
      (send_short_to_long_mem 1 m).actorMem.length = m.actorMem.length) := by
  obtain ⟨sm, am⟩ := m
  have h2 : sm = t :: rest := h
  subst h2
  refine ⟨rfl, ?_, ?_⟩
  · intro hgt
    show (send_short_to_long_mem 1 ⟨t :: rest, am⟩).actorMem = MemoryStack.push t am
    rw [send_one]
    show condPush t am = MemoryStack.push t am
    unfold condPush
    rw [if_pos hgt]
  · intro hle
    have hc : condPush t am = am := by
      unfold condPush
      rw [if_neg (not_lt.mpr hle)]
    constructor
    · show (send_short_to_long_mem 1 ⟨t :: rest, am⟩).actorMem = am
      rw [send_one]
      exact hc
    · show (send_short_to_long_mem 1 ⟨t :: rest, am⟩).actorMem.length = am.length
      rw [send_one]
      show (condPush t am).length = am.length
      rw [hc]

/-- A window holding one record whose reward is 0, at the admission
threshold. -/
def mC5 : MemState := ⟨[Transition.dflt], []⟩

theorem C5_admission_filter_witness :
    mC5.shortMem = Transition.dflt :: [] ∧
    abs Transition.dflt.reward ≤ MEMORY_REWARD_THRESH ∧
    (send_short_to_long_mem 1 mC5).shortMem = [] ∧
    (send_short_to_long_mem 1 mC5).actorMem = mC5.actorMem ∧
    (send_short_to_long_mem 1 mC5).actorMem.length = mC5.actorMem.length :=
  ⟨rfl, by decide, (C5_admission_filter mC5 Transition.dflt [] rfl).1,
    ((C5_admission_filter mC5 Transition.dflt [] rfl).2.2 (by decide)).1,
    ((C5_admission_filter mC5 Transition.dflt [] rfl).2.2 (by decide)).2⟩

/-- Claim C6: a training update runs if and only if learning is enabled, the
replay store holds strictly more than `BATCH_SIZE` transitions and the global
step count is a multiple of `TRAIN_INTERVAL`; with `BATCH_SIZE` or fewer
stored transitions the call is skipped without error and neither the online
parameters nor the replay store change (lines 186-196 of
src/lunarlander.py). -/
theorem C6_training_gate (trainFn : List ℚ → List ℚ) (step : ℕ)
    (mem : List Transition) (params : List ℚ) :
    ((try_learning trainFn step mem params).2.2 = true ↔
      (LEARNING_ENABLED = true ∧ BATCH_SIZE < mem.length ∧
        step % TRAIN_INTERVAL = 0)) ∧
    (mem.length ≤ BATCH_SIZE →
      try_learning trainFn step mem params = (mem, params, false)) := by
  constructor
  · unfold try_learning
    split_ifs with h1 h2 h3
    · simp [LEARNING_ENABLED] at h1
    · simp [LEARNING_ENABLED, h2, h3]
    · simp [h2, h3]
    · simp [h2]
  · intro hle
    unfold try_learning
    rw [if_neg (by simp [LEARNING_ENABLED]), if_neg (not_lt.mpr hle)]

theorem C6_training_gate_witness :
    ([] : List Transition).length ≤ BATCH_SIZE ∧
    try_learning (fun p => p) 0 [] [1] = ([], [1], false) :=
  ⟨by decide, (C6_training_gate (fun p => p) 0 [] [1]).2 (by decide)⟩

theorem dequeAppend_full (q : List (List ℚ)) (x : List ℚ)
    (h : q.length = INPUT_N_STATES) :
    dequeAppend INPUT_N_STATES q x = q.drop 1 ++ [x] := by
  unfold dequeAppend
  rw [if_pos (by simp [h])]
  have h1 : (q ++ [x]).length - INPUT_N_STATES = 1 := by simp [h]
  rw [h1, List.drop_append_of_le_length (by simp [h, INPUT_N_STATES])]

/-- Claim C7: on every environment step that reports terminated or truncated,
the entire reward-shaping window, including the transition created at that
terminal step, is flushed through the replay store conditional-admission
push, so the window is empty at the end of every episode and no transition
stays resident across episode boundaries (lines 291-313 of
src/lunarlander.py). -/
theorem C7_terminal_flush (inp : StepInput) (s : AgentState)
    (h : inp.done = true) :
    (model_infer_step inp s).short_memory = [] ∧
    (model_infer_step inp s).actor_mem
      = ((affect_short_mem inp.reward ⟨s.short_memory, s.actor_mem⟩).shortMem
          ++ [mem_block s.obs_stack inp.reset_obs inp.action inp.reward]).foldl
          (fun mem t => condPush t mem)
          (affect_short_mem inp.reward ⟨s.short_memory, s.actor_mem⟩).actorMem := by
  unfold model_infer_step
  rw [h]
  simp only [if_pos]
  rw [send_short_to_long_mem_all]
  constructor
  · rfl
  · rw [try_learning_fst]

/-- A terminal environment step. -/
def inpC7 : StepInput := ⟨[], 0, true, [7], 3, [], fun p => p⟩

def sC7 : AgentState := ⟨[[1], [2], [3], [4]], [], [], 1, 5, [], []⟩

theorem C7_terminal_flush_witness :
    inpC7.done = true ∧
    (model_infer_step inpC7 sC7).short_memory = [] ∧
    (model_infer_step inpC7 sC7).actor_mem = [] :=
  ⟨rfl, (C7_terminal_flush inpC7 sC7 rfl).1,
    (C7_terminal_flush inpC7 sC7 rfl).2.trans (by decide)⟩

/-- Claim C8: the synchronization scheduler overwrites every target parameter
with the online parameter on steps where the global step count is a multiple
of the hard-copy interval (the hard copy superseding the soft blend when both
fire), applies the Polyak blend t + tau * (o - t) on steps that are a
multiple of the soft-copy interval only, and leaves the target untouched
otherwise; within the per-step pipeline the target parameters are produced
only by this scheduler call (line 317 of src/lunarlander.py; the only other
pred_model parameter write is the startup copy of line 173, and model_train
only reads pred_model through its forward pass). -/
theorem C8_target_sync (m : ModelAdjuster) (st : ℕ) (online target : List ℚ)
    (inp : StepInput) (s : AgentState) :
    (st % m.hard_copy_interval = 0 → m.soft_hard_copy st online target = online) ∧
    (¬st % m.hard_copy_interval = 0 → st % m.soft_copy_interval = 0 →
      m.soft_hard_copy st online target
        = List.zipWith (fun o t => t + m.tau * (o - t)) online target) ∧
    (¬st % m.hard_copy_interval = 0 → ¬st % m.soft_copy_interval = 0 →
      m.soft_hard_copy st online target = target) ∧
    (model_infer_step inp s).target
      = model_adjuster.soft_hard_copy s.step (model_infer_step inp s).online
          s.target := by
  refine ⟨?_, ?_, ?_, rfl⟩
  · intro hh
    simp only [ModelAdjuster.soft_hard_copy]
    rw [if_pos hh]
  · intro h1 h2
    simp only [ModelAdjuster.soft_hard_copy]
    rw [if_neg h1, if_pos h2]
  · intro h1 h2
    simp only [ModelAdjuster.soft_hard_copy]
    rw [if_neg h1, if_neg h2]

/-- A scheduler configuration whose three schedule cases are all reachable. -/
def mAdj : ModelAdjuster := ⟨1 / 2, 4, 3⟩

def inpC8 : StepInput := ⟨[], 0, false, [], 0, [], fun p => p⟩

def sC8 : AgentState := ⟨[], [], [], 1, 2, [3], [5]⟩

theorem C8_target_sync_witness :
    (0 % mAdj.hard_copy_interval = 0 ∧ mAdj.soft_hard_copy 0 [3] [5] = [3]) ∧
    (¬3 % mAdj.hard_copy_interval = 0 ∧ 3 % mAdj.soft_copy_interval = 0 ∧
      mAdj.soft_hard_copy 3 [3] [5]
        = List.zipWith (fun o t => t + mAdj.tau * (o - t)) [3] [5]) ∧
    (¬7 % mAdj.hard_copy_interval = 0 ∧ ¬7 % mAdj.soft_copy_interval = 0 ∧
      mAdj.soft_hard_copy 7 [3] [5] = [5]) :=
  ⟨⟨by decide, (C8_target_sync mAdj 0 [3] [5] inpC8 sC8).1 (by decide)⟩,
   ⟨by decide, by decide,
    (C8_target_sync mAdj 3 [3] [5] inpC8 sC8).2.1 (by decide) (by decide)⟩,
   ⟨by decide, by decide,
    (C8_target_sync mAdj 7 [3] [5] inpC8 sC8).2.2.1 (by decide) (by decide)⟩⟩

/-- Claim C10: when an episode ends, the environment is reset before the
terminal transition record is built, so the stored next_state concatenates
the last INPUT_N_STATES - 1 observations of the ended episode with the first
observation of the freshly reset episode, the observation stack carries over
(it is fully re-initialized only between calls of the episode loop, lines
404-410), the terminal reward is attached to this cross-episode transition,
and this transition is the last one offered to the replay store
conditional-admission push of the terminal flush (lines 291-313 of
src/lunarlander.py). -/
theorem C10_cross_episode_transition (inp : StepInput) (s : AgentState)
    (hdone : inp.done = true) (hlen : s.obs_stack.length = INPUT_N_STATES) :
    (mem_block s.obs_stack inp.reset_obs inp.action inp.reward).next_state
        = (s.obs_stack.drop 1).flatten ++ inp.reset_obs ∧
    (s.obs_stack.drop 1).length = INPUT_N_STATES - 1 ∧
    (mem_block s.obs_stack inp.reset_obs inp.action inp.reward).reward
        = inp.reward ∧
    (model_infer_step inp s).obs_stack = s.obs_stack.drop 1 ++ [inp.reset_obs] ∧
    (model_infer_step inp s).actor_mem
      = condPush (mem_block s.obs_stack inp.reset_obs inp.action inp.reward)
          ((affect_short_mem inp.reward ⟨s.short_memory, s.actor_mem⟩).shortMem.foldl
            (fun mem t => condPush t mem)
            (affect_short_mem inp.reward ⟨s.short_memory, s.actor_mem⟩).actorMem) := by
  refine ⟨?_, ?_, rfl, ?_, ?_⟩
  · show (dequeAppend INPUT_N_STATES s.obs_stack inp.reset_obs).flatten = _
    rw [dequeAppend_full _ _ hlen]
    simp
  · simp [hlen]
  · unfold model_infer_step
    rw [hdone]
    simp only [if_pos]
    exact dequeAppend_full _ _ hlen
  · unfold model_infer_step
    rw [hdone]
    simp only [if_pos]
    rw [send_short_to_long_mem_all, try_learning_fst]
    show ((affect_short_mem inp.reward ⟨s.short_memory, s.actor_mem⟩).shortMem
        ++ [mem_block s.obs_stack inp.reset_obs inp.action inp.reward]).foldl
        (fun mem t => condPush t mem)
        (affect_short_mem inp.reward ⟨s.short_memory, s.actor_mem⟩).actorMem = _
    rw [List.foldl_append]
    rfl

/-- A terminal step with four observations of the ended episode on the stack
and a reset observation from the next episode. -/
def inpC10 : StepInput := ⟨[9], 3, true, [99], 2, [], fun p => p⟩

def sC10 : AgentState := ⟨[[10], [11], [12], [13]], [], [], 1, 7, [], []⟩

theorem C10_cross_episode_transition_witness :
    inpC10.done = true ∧
    sC10.obs_stack.length = INPUT_N_STATES ∧
    (mem_block sC10.obs_stack inpC10.reset_obs inpC10.action inpC10.reward).next_state
        = (sC10.obs_stack.drop 1).flatten ++ inpC10.reset_obs ∧
    (model_infer_step inpC10 sC10).obs_stack
        = sC10.obs_stack.drop 1 ++ [inpC10.reset_obs] ∧
    (mem_block sC10.obs_stack inpC10.reset_obs inpC10.action inpC10.reward).next_state
        = [11, 12, 13, 99] :=
  ⟨rfl, rfl,
    (C10_cross_episode_transition inpC10 sC10 rfl rfl).1,
    (C10_cross_episode_transition inpC10 sC10 rfl rfl).2.2.2.1,
    by decide⟩

/-- A non-terminal environment step on which a training update runs (the
replay store below holds 65 > BATCH_SIZE transitions). -/
def inpC2 : StepInput := ⟨[], 0, false, [], 0, [], fun p => p⟩

def sC2 : AgentState := ⟨[], [], List.replicate 65 Transition.dflt, 2, 0, [], []⟩

/-- The same state with an empty replay store, so no training update runs. -/
def sC2e : AgentState := ⟨[], [], [], 2, 0, [], []⟩

/-- Claim C2 (evaluation at the failing input): `CustomDQN.forward` runs
`explore, eps = greedy_epsilon.choose(eps)` on every forward pass (line 148),
including the three training-mode forwards inside `model_train` (lines 345,
359, 363).  On an environment step where a training update runs, epsilon
therefore decays by 4 * EPS_DECAY - strictly more than the single EPS_DECAY
increment the claim allows - while on a step without training it decays by
exactly EPS_DECAY; the decay applied by one choose call is EPS_DECAY
whatever the drawn sample. -/
theorem C2_epsilon_quadruple_decay :
    (model_infer_step inpC2 sC2).eps = 2 - 4 * EPS_DECAY ∧
    (model_infer_step inpC2 sC2e).eps = 2 - EPS_DECAY ∧
    EPS_DECAY < 2 - (model_infer_step inpC2 sC2).eps ∧
    (greedy_epsilon.choose (1 / 2) 2).2 = 2 - EPS_DECAY := by
  refine ⟨?_, ?_, ?_, ?_⟩ <;>
    simp [model_infer_step, inpC2, sC2, sC2e, try_learning, affect_short_mem,
      affect_flush_phase, GreedyEpsilon.choose, greedy_epsilon, DISABLE_RANDOM,
      EPS_DECAY, MIN_EPS, LEARNING_ENABLED, BATCH_SIZE, TRAIN_INTERVAL,
      REWARD_AFFECT_PAST_N, REWARD_AFFECT_THRESH, shapeRewards, max_def] <;>
    norm_num
